import Mathlib

attribute [local semireducible] Rat.mul Rat.inv

/-!
Verification of the metrics-plotting script `scripts/memory-profiling/plot-metrics.py`.

The script is embedded shallowly:
  * a pandas dataframe is an association list from column names to columns of
    rational values (`DataFrame`);
  * `load` is `pd.read_csv` followed by the derived-column assignment
    `df[time_minutes] = df[timestamp] / 60`;
  * `render` collects the point series that the four `ax.plot` calls draw
    (`zip` of the x column with the y column), in source order;
  * the filesystem is a partial map from paths to entries (`Fs`); a file entry
    records how its bytes parse: as a CSV dataframe, as a PNG image, or as
    neither;
  * `pyMain` is the `__main__` block; it returns the process outcome together
    with the ordered trace of observable effects (file read, file write,
    stdout print, interactive window).
-/

/-- A pandas dataframe, column oriented: an association list from column name
to the column values. `pd.read_csv` keeps columns in file order and
`df[c] = v` appends a fresh column at the end, which `setCol` mirrors. -/
abbrev DataFrame := List (String × List Rat)

/-- Column lookup, `df[c]` on the right-hand side of an assignment.
Returns `none` when the column is absent (a pandas `KeyError`). -/
def getCol : DataFrame → String → Option (List Rat)
  | [], _ => none
  | (k, v) :: rest, c => if k = c then some v else getCol rest c

/-- Column assignment `df[c] = v`: replaces the column when present,
appends it at the end otherwise. -/
def setCol : DataFrame → String → List Rat → DataFrame
  | [], c, v => [(c, v)]
  | (k, w) :: rest, c, v =>
      if k = c then (c, v) :: rest else (k, w) :: setCol rest c v

/-- Every column of the dataframe has exactly `n` entries: the dataframe has
`n` rows. `pd.read_csv` always produces a rectangular frame. -/
def uniform (df : DataFrame) (n : Nat) : Prop := ∀ c ∈ df, c.2.length = n

instance (df : DataFrame) (n : Nat) : Decidable (uniform df n) :=
  List.decidableBAll _ df

/-- The number of rows of a rectangular dataframe, read off its first column. -/
def nRows : DataFrame → Nat
  | [] => 0
  | c :: _ => c.2.length

/-- The eight columns the script requires of its input CSV. -/
def requiredColumns : List String :=
  ["timestamp", "heap_alloc_mb", "heap_inuse_mb", "heap_sys_mb",
   "heap_objects", "goroutines", "total_alloc_mb", "num_gc"]

/-- The load step of `plot_metrics`: after `pd.read_csv` the script runs
`df[time_minutes] = df[timestamp] / 60`. Fails (pandas `KeyError`) when the
`timestamp` column is absent. -/
def load (df : DataFrame) : Option DataFrame :=
  match getCol df "timestamp" with
  | some ts => some (setCol df "time_minutes" (ts.map (fun t => t / 60)))
  | none => none

/-- The point series drawn by `ax.plot(df[time_minutes], df[y])`: the x column
zipped with the y column. Fails when either column is absent. -/
def seriesOf (df : DataFrame) (y : String) : Option (List (Rat × Rat)) :=
  match getCol df "time_minutes", getCol df y with
  | some xs, some ys => some (xs.zip ys)
  | _, _ => none

/-- The data content of the rendered 2x2 grid: the series of each panel, in
the order the script draws them. -/
structure RenderResult where
  heapPanel : List (List (Rat × Rat))
  objectsPanel : List (Rat × Rat)
  goroutinesPanel : List (Rat × Rat)
  allocGcPanel : List (List (Rat × Rat))
deriving DecidableEq

/-- The render step of `plot_metrics`: the seven `ax.plot` calls in source
order. Panel 1 overlays `heap_alloc_mb`, `heap_inuse_mb`, `heap_sys_mb`;
panels 2 and 3 draw `heap_objects` and `goroutines`; panel 4 overlays
`total_alloc_mb` with `num_gc` on a twin axis. Fails (pandas `KeyError`)
when any required column is absent. -/
def render (df : DataFrame) : Option RenderResult :=
  match seriesOf df "heap_alloc_mb", seriesOf df "heap_inuse_mb",
        seriesOf df "heap_sys_mb", seriesOf df "heap_objects",
        seriesOf df "goroutines", seriesOf df "total_alloc_mb",
        seriesOf df "num_gc" with
  | some s1, some s2, some s3, some s4, some s5, some s6, some s7 =>
      some ⟨[s1, s2, s3], s4, s5, [s6, s7]⟩
  | _, _, _, _, _, _, _ => none

/-- Index of the last occurrence of a character in a list, when present. -/
def rfindIdx (c : Char) : List Char → Option Nat
  | [] => none
  | x :: xs =>
      match rfindIdx c xs with
      | some i => some (i + 1)
      | none => if x = c then some 0 else none

/-- The final path component, `pathlib.Path(p).name`: everything after the
last slash. -/
def baseName (p : String) : String :=
  match rfindIdx '/' p.toList with
  | some i => String.mk (p.toList.drop (i + 1))
  | none => p

/-- `pathlib` stem rule on a name without slashes: drop from the last dot on,
but only when that dot is neither the first character nor the last. -/
def stemChars (n : List Char) : List Char :=
  match rfindIdx '.' n with
  | some i => if 0 < i ∧ i + 1 < n.length then n.take i else n
  | none => n

/-- `pathlib.Path(p).stem`: the final component with its last extension
removed. -/
def stem (p : String) : String :=
  String.mk (stemChars (baseName p).toList)

/-- The output file name the script computes:
`output_file = Path(csv_file).stem + ".png"`. A bare file name, so the write
lands in the current working directory. -/
def outName (p : String) : String := stem p ++ ".png"

/-- How the bytes of a file on disk parse. -/
inductive FileData
  /-- Text that `pd.read_csv` parses into the given dataframe. -/
  | csv (df : DataFrame)
  /-- A PNG image, as written by `savefig`; not parseable as CSV. -/
  | png (r : RenderResult)
  /-- Bytes that `pd.read_csv` rejects. -/
  | malformed
deriving DecidableEq

/-- A filesystem entry: a regular file or a directory. -/
inductive FsEntry
  | file (d : FileData)
  | dir
deriving DecidableEq

/-- The filesystem, a partial map from paths to entries. -/
abbrev Fs := String → Option FsEntry

/-- `pathlib.Path(p).exists()`: true for files and directories alike. -/
def pathExists (fs : Fs) (p : String) : Bool := (fs p).isSome

/-- `pd.read_csv(p)`: succeeds exactly on a regular file whose bytes parse
as CSV; directories, PNGs and malformed text raise. -/
def readCsvFile (fs : Fs) (p : String) : Option DataFrame :=
  match fs p with
  | some (FsEntry.file (FileData.csv df)) => some df
  | _ => none

/-- The whole data pipeline of `plot_metrics`: read the CSV, add the derived
column, draw the four panels. `none` is an uncaught exception. -/
def pipeline (fs : Fs) (p : String) : Option RenderResult :=
  (readCsvFile fs p).bind fun df => (load df).bind fun df2 => render df2

/-- An observable effect of a run, in order of occurrence. -/
inductive Effect
  /-- The `pd.read_csv` call on the input path. -/
  | readCsv (path : String)
  /-- `plt.savefig(name)`: the PNG named `name` is written with the given
  rendered content. -/
  | writeFile (name : String) (content : RenderResult)
  /-- A line printed to stdout. -/
  | print (msg : String)
  /-- `plt.show()`: the interactive viewer window opens. -/
  | showWindow
deriving DecidableEq

/-- How the process ends: an explicit or implicit exit code, or an uncaught
exception escaping `plot_metrics`. -/
inductive Outcome
  | exit (code : Nat)
  | uncaughtError
deriving DecidableEq

/-- True exactly on the file-write effect. -/
def isWrite : Effect → Bool
  | Effect.writeFile _ _ => true
  | _ => false

/-- True exactly on the file-read effect. -/
def isRead : Effect → Bool
  | Effect.readCsv _ => true
  | _ => false

/-- An apostrophe, as used by the f-string around the missing path. -/
def squote : String := String.singleton (Char.ofNat 39)

/-- The usage line printed when the CLI argument is missing. -/
def usageMsg : String := "Usage: python3 scripts/plot-metrics.py <csv_file>"

/-- The diagnostic printed when the input path does not exist. -/
def notFoundMsg (p : String) : String :=
  "Error: File " ++ squote ++ p ++ squote ++ " not found"

/-- The success message printed after `savefig`. -/
def savedMsg (out : String) : String := "Plot saved to: " ++ out

/-- `plot_metrics(csv_file)` together with the implicit exit 0 of the caller:
on any pipeline failure the exception escapes after only the read attempt;
on success the script writes the PNG, prints the saved-to line, and opens
the viewer window, in that order. -/
def plotMetrics (fs : Fs) (p : String) : Outcome × List Effect :=
  match pipeline fs p with
  | none => (Outcome.uncaughtError, [Effect.readCsv p])
  | some r =>
      (Outcome.exit 0,
       [Effect.readCsv p, Effect.writeFile (outName p) r,
        Effect.print (savedMsg (outName p)), Effect.showWindow])

/-- The `__main__` block: usage check on `len(sys.argv)`, existence check on
`sys.argv[1]`, then `plot_metrics`. -/
def pyMain (argv : List String) (fs : Fs) : Outcome × List Effect :=
  if argv.length < 2 then
    (Outcome.exit 1, [Effect.print usageMsg])
  else
    let p := argv.getD 1 ""
    if pathExists fs p then plotMetrics fs p
    else (Outcome.exit 1, [Effect.print (notFoundMsg p)])

/-- Point update of the filesystem. -/
def updateFs (fs : Fs) (name : String) (e : FsEntry) : Fs :=
  fun q => if q = name then some e else fs q

/-- The filesystem after one run of the script on input `p`: a successful run
writes the rendered PNG at the output name; a failed run writes nothing. -/
def applyRun (fs : Fs) (p : String) : Fs :=
  match pipeline fs p with
  | some r => updateFs fs (outName p) (FsEntry.file (FileData.png r))
  | none => fs

/-- A two-row dataframe holding all eight required columns, as parsed from a
small concrete CSV. -/
def dfEx : DataFrame :=
  [("timestamp", [0, 120]), ("heap_alloc_mb", [10, 20]),
   ("heap_inuse_mb", [5, 15]), ("heap_sys_mb", [30, 40]),
   ("heap_objects", [100, 200]), ("goroutines", [3, 4]),
   ("total_alloc_mb", [50, 60]), ("num_gc", [1, 2])]

/-- `dfEx` after the load step: the derived `time_minutes` column appended. -/
def dfLoaded : DataFrame := dfEx ++ [("time_minutes", [0, 2])]

/-- The rendered content of `dfEx`. -/
def rEx : RenderResult :=
  ⟨[[(0, 10), (2, 20)], [(0, 5), (2, 15)], [(0, 30), (2, 40)]],
   [(0, 100), (2, 200)], [(0, 3), (2, 4)],
   [[(0, 50), (2, 60)], [(0, 1), (2, 2)]]⟩

/-- An empty filesystem. -/
def emptyFs : Fs := fun _ => none

/-- A filesystem holding the small CSV at `foo.csv`. -/
def fsEx : Fs :=
  fun q => if q = "foo.csv" then some (FsEntry.file (FileData.csv dfEx)) else none

/-- A filesystem holding the small CSV at `metrics.csv`. -/
def fsEx2 : Fs :=
  fun q => if q = "metrics.csv" then some (FsEntry.file (FileData.csv dfEx)) else none

/-- A filesystem where the input file is itself named `foo.png`, yet holds
valid CSV text. -/
def fsPng : Fs :=
  fun q => if q = "foo.png" then some (FsEntry.file (FileData.csv dfEx)) else none

/-- A filesystem holding a file at `bad.csv` whose bytes do not parse as
CSV. -/
def fsBad : Fs :=
  fun q => if q = "bad.csv" then some (FsEntry.file FileData.malformed) else none

/-- A filesystem holding a directory at `somedir`. -/
def fsDir : Fs :=
  fun q => if q = "somedir" then some FsEntry.dir else none

theorem getCol_setCol_self (df : DataFrame) (k : String) (v : List Rat) :
    getCol (setCol df k v) k = some v := by
  induction df with
  | nil => simp [setCol, getCol]
  | cons c rest ih =>
      obtain ⟨k', w⟩ := c
      by_cases h : k' = k
      · simp [setCol, getCol, h]
      · simp [setCol, getCol, h, ih]

theorem getCol_setCol_ne (df : DataFrame) (k c : String) (v : List Rat)
    (h : c ≠ k) : getCol (setCol df k v) c = getCol df c := by
  have hkc : ¬ k = c := fun hk => h hk.symm
  induction df with
  | nil => simp [setCol, getCol, hkc]
  | cons p rest ih =>
      obtain ⟨k', w⟩ := p
      by_cases hk : k' = k
      · subst hk
        simp [setCol, getCol, hkc]
      · by_cases hc : k' = c
        · simp [setCol, getCol, hk, hc, h]
        · simp [setCol, getCol, hk, hc, ih]

theorem getCol_mem (df : DataFrame) (c : String) (v : List Rat)
    (h : getCol df c = some v) : (c, v) ∈ df := by
  induction df with
  | nil => simp [getCol] at h
  | cons p rest ih =>
      obtain ⟨k, w⟩ := p
      by_cases hk : k = c
      · subst hk
        simp [getCol] at h
        simp [h]
      · simp [getCol, hk] at h
        exact List.mem_cons_of_mem _ (ih h)

theorem setCol_ne_nil (df : DataFrame) (k : String) (v : List Rat) :
    setCol df k v ≠ [] := by
  cases df with
  | nil => simp [setCol]
  | cons p rest =>
      obtain ⟨k', w⟩ := p
      by_cases h : k' = k <;> simp [setCol, h]

theorem uniform_setCol (df : DataFrame) (k : String) (v : List Rat) (n : Nat)
    (hu : uniform df n) (hv : v.length = n) : uniform (setCol df k v) n := by
  induction df with
  | nil =>
      intro c hc
      simp [setCol] at hc
      simp [hc, hv]
  | cons p rest ih =>
      obtain ⟨k', w⟩ := p
      have hw : w.length = n := hu (k', w) (List.mem_cons_self _ _)
      have hrest : uniform rest n := fun c hc => hu c (List.mem_cons_of_mem _ hc)
      by_cases h : k' = k
      · intro c hc
        simp [setCol, h] at hc
        cases hc with
        | inl hc => simp [hc, hv]
        | inr hc => exact hrest c hc
      · intro c hc
        simp [setCol, h] at hc
        cases hc with
        | inl hc => simp [hc, hw]
        | inr hc => exact ih hrest c hc

theorem uniform_nRows (df : DataFrame) (n : Nat)
    (hu : uniform df n) (hne : df ≠ []) : nRows df = n := by
  cases df with
  | nil => exact absurd rfl hne
  | cons c rest => exact hu c (List.mem_cons_self _ _)

theorem getD_map_div (ts : List Rat) :
    ∀ i, i < ts.length →
      (ts.map (fun t => t / 60)).getD i 0 = ts.getD i 0 / 60 := by
  induction ts with
  | nil => intro i h; exact absurd h (Nat.not_lt_zero i)
  | cons x t ih =>
      intro i h
      cases i with
      | zero => simp
      | succ j =>
          simp only [List.map_cons, List.getD_cons_succ]
          exact ih j (Nat.lt_of_succ_lt_succ h)

theorem pyMain_cons_cons (prog p : String) (rest : List String) (fs : Fs) :
    pyMain (prog :: p :: rest) fs =
      if pathExists fs p then plotMetrics fs p
      else (Outcome.exit 1, [Effect.print (notFoundMsg p)]) := by
  rw [pyMain]
  rw [if_neg (by simp [List.length_cons])]
  rfl

theorem readCsvFile_some (fs : Fs) (p : String) (df : DataFrame)
    (h : readCsvFile fs p = some df) :
    fs p = some (FsEntry.file (FileData.csv df)) := by
  unfold readCsvFile at h
  cases hfs : fs p with
  | none => rw [hfs] at h; simp at h
  | some e =>
      cases e with
      | dir => rw [hfs] at h; simp at h
      | file d =>
          cases d with
          | csv df0 =>
              rw [hfs] at h
              simp at h
              subst h
              rfl
          | png r => rw [hfs] at h; simp at h
          | malformed => rw [hfs] at h; simp at h

theorem pipeline_some (fs : Fs) (p : String) (r : RenderResult)
    (h : pipeline fs p = some r) :
    ∃ df df2, readCsvFile fs p = some df ∧ load df = some df2 ∧
      render df2 = some r := by
  simp only [pipeline, Option.bind_eq_some] at h
  obtain ⟨df, hdf, df2, hdf2, hr⟩ := h
  exact ⟨df, df2, hdf, hdf2, hr⟩

theorem pyMain_success (prog p : String) (rest : List String) (fs : Fs)
    (r : RenderResult) (hp : pipeline fs p = some r) :
    pyMain (prog :: p :: rest) fs =
      (Outcome.exit 0,
       [Effect.readCsv p, Effect.writeFile (outName p) r,
        Effect.print (savedMsg (outName p)), Effect.showWindow]) := by
  obtain ⟨df, df2, hread, hload, hrender⟩ := pipeline_some fs p r hp
  have hfs := readCsvFile_some fs p df hread
  have hex : pathExists fs p = true := by simp [pathExists, hfs]
  simp [pyMain_cons_cons, hex, plotMetrics, hp]

theorem pyMain_congr (prog p : String) (rest : List String) (fs1 fs2 : Fs)
    (h : fs1 p = fs2 p) :
    pyMain (prog :: p :: rest) fs1 = pyMain (prog :: p :: rest) fs2 := by
  rw [pyMain_cons_cons, pyMain_cons_cons]
  simp [pathExists, plotMetrics, pipeline, readCsvFile, h]

theorem rfindIdx_eq_none (c : Char) (xs : List Char)
    (h : rfindIdx c xs = none) : c ∉ xs := by
  induction xs with
  | nil => simp
  | cons x t ih =>
      rw [rfindIdx] at h
      cases ht : rfindIdx c t with
      | some i => rw [ht] at h; simp at h
      | none =>
          rw [ht] at h
          by_cases hx : x = c
          · rw [if_pos hx] at h; simp at h
          · intro hmem
            rcases List.mem_cons.mp hmem with hcx | hct
            · exact hx hcx.symm
            · exact ih ht hct

theorem rfindIdx_drop (c : Char) (xs : List Char) :
    ∀ i, rfindIdx c xs = some i → c ∉ xs.drop (i + 1) := by
  induction xs with
  | nil => intro i h; rw [rfindIdx] at h; simp at h
  | cons x t ih =>
      intro i h
      rw [rfindIdx] at h
      cases ht : rfindIdx c t with
      | some j =>
          rw [ht] at h
          simp at h
          subst h
          simpa [List.drop_succ_cons] using ih j ht
      | none =>
          rw [ht] at h
          by_cases hx : x = c
          · rw [if_pos hx] at h
            simp at h
            subst h
            simpa using rfindIdx_eq_none c t ht
          · rw [if_neg hx] at h; simp at h

theorem baseName_no_slash (p : String) : '/' ∉ (baseName p).toList := by
  cases h : rfindIdx '/' p.toList with
  | none =>
      simp only [baseName, h]
      exact rfindIdx_eq_none _ _ h
  | some i =>
      simp only [baseName, h]
      exact rfindIdx_drop '/' p.toList i h

theorem stemChars_not_mem (c : Char) (n : List Char) (h : c ∉ n) :
    c ∉ stemChars n := by
  cases hr : rfindIdx '.' n with
  | none => simp only [stemChars, hr]; exact h
  | some i =>
      simp only [stemChars, hr]
      by_cases hc : 0 < i ∧ i + 1 < n.length
      · rw [if_pos hc]
        intro hmem
        exact h (List.take_subset _ _ hmem)
      · rw [if_neg hc]; exact h

theorem stem_no_slash (p : String) : '/' ∉ (stem p).toList := by
  exact stemChars_not_mem '/' (baseName p).toList (baseName_no_slash p)

theorem outName_no_slash (p : String) : '/' ∉ (outName p).toList := by
  intro hmem
  have happ : (outName p).toList = (stem p).toList ++ ".png".toList := by
    simp [outName, String.toList, String.data_append]
  rw [happ] at hmem
  rcases List.mem_append.mp hmem with hs | hpng
  · exact stem_no_slash p hs
  · simp at hpng

/-- C1: for a parsed CSV dataframe holding all eight required columns and
`n` rows, `load` succeeds and returns the dataframe extended with a
`time_minutes` column equal to `timestamp / 60` elementwise, and the result
still has exactly `n` rows. -/
theorem load_adds_time_minutes (df : DataFrame) (ts : List Rat) (n : Nat)
    (hts : getCol df "timestamp" = some ts)
    (hcols : ∀ c ∈ requiredColumns, (getCol df c).isSome = true)
    (hunif : uniform df n) :
    load df = some (setCol df "time_minutes" (ts.map (fun t => t / 60))) ∧
    getCol (setCol df "time_minutes" (ts.map (fun t => t / 60)))
      "time_minutes" = some (ts.map (fun t => t / 60)) ∧
    ts.length = n ∧
    uniform (setCol df "time_minutes" (ts.map (fun t => t / 60))) n ∧
    nRows (setCol df "time_minutes" (ts.map (fun t => t / 60))) = n ∧
    (∀ i, i < n → (ts.map (fun t => t / 60)).getD i 0 = ts.getD i 0 / 60) := by
  have hlen : ts.length = n := hunif ("timestamp", ts) (getCol_mem df _ ts hts)
  have hmap : (ts.map fun t => t / 60).length = n := by simp [hlen]
  have hload :
      load df = some (setCol df "time_minutes" (ts.map (fun t => t / 60))) := by
    simp [load, hts]
  have hun : uniform (setCol df "time_minutes" (ts.map fun t => t / 60)) n :=
    uniform_setCol df _ _ n hunif hmap
  refine ⟨hload, getCol_setCol_self df _ _, hlen, hun, ?_, ?_⟩
  · exact uniform_nRows _ n hun (setCol_ne_nil df _ _)
  · intro i hi
    exact getD_map_div ts i (by rw [hlen]; exact hi)

/-- Witness for C1 at the concrete two-row dataframe. -/
theorem load_adds_time_minutes_witness :
    load dfEx =
      some (setCol dfEx "time_minutes"
        (([0, 120] : List Rat).map (fun t => t / 60))) ∧
    nRows (setCol dfEx "time_minutes"
      (([0, 120] : List Rat).map (fun t => t / 60))) = 2 ∧
    (([0, 120] : List Rat).map (fun t => t / 60)).getD 0 0 =
      ([0, 120] : List Rat).getD 0 0 / 60 :=
  ⟨(load_adds_time_minutes dfEx [0, 120] 2 (by decide) (by decide) (by decide)).1,
   (load_adds_time_minutes dfEx [0, 120] 2
      (by decide) (by decide) (by decide)).2.2.2.2.1,
   (load_adds_time_minutes dfEx [0, 120] 2
      (by decide) (by decide) (by decide)).2.2.2.2.2 0 (by decide)⟩

/-- C2: with fewer than two argv entries (no positional argument) the process
prints the usage line and exits with code 1, and its trace contains no file
read and no file write. -/
theorem cli_usage_exit (argv : List String) (fs : Fs)
    (h : argv.length < 2) :
    pyMain argv fs = (Outcome.exit 1, [Effect.print usageMsg]) ∧
    (∀ e ∈ (pyMain argv fs).2, isRead e = false ∧ isWrite e = false) := by
  have heq : pyMain argv fs = (Outcome.exit 1, [Effect.print usageMsg]) := by
    simp [pyMain, h]
  refine ⟨heq, ?_⟩
  intro e he
  rw [heq] at he
  simp at he
  subst he
  exact ⟨rfl, rfl⟩

/-- Witness for C2: invoking with only the program name. -/
theorem cli_usage_exit_witness :
    pyMain ["plot-metrics.py"] emptyFs =
      (Outcome.exit 1, [Effect.print usageMsg]) :=
  (cli_usage_exit ["plot-metrics.py"] emptyFs (by decide)).1

/-- C3: with an argument naming a nonexistent path the process prints the
one-line not-found diagnostic, which contains the path, exits with code 1,
and writes no output file. -/
theorem cli_not_found_exit (prog p : String) (rest : List String) (fs : Fs)
    (h : fs p = none) :
    pyMain (prog :: p :: rest) fs =
      (Outcome.exit 1, [Effect.print (notFoundMsg p)]) ∧
    (∃ pre post, notFoundMsg p = pre ++ p ++ post) ∧
    (∀ e ∈ (pyMain (prog :: p :: rest) fs).2, isWrite e = false) := by
  have hex : pathExists fs p = false := by simp [pathExists, h]
  have heq : pyMain (prog :: p :: rest) fs =
      (Outcome.exit 1, [Effect.print (notFoundMsg p)]) := by
    rw [pyMain_cons_cons]
    simp [hex]
  refine ⟨heq, ⟨"Error: File " ++ squote, squote ++ " not found", ?_⟩, ?_⟩
  · simp [notFoundMsg, String.append_assoc]
  · intro e he
    rw [heq] at he
    simp at he
    subst he
    rfl

/-- Witness for C3 at a missing path. -/
theorem cli_not_found_exit_witness :
    pyMain ["plot-metrics.py", "missing.csv"] emptyFs =
      (Outcome.exit 1, [Effect.print (notFoundMsg "missing.csv")]) :=
  (cli_not_found_exit "plot-metrics.py" "missing.csv" [] emptyFs rfl).1

theorem render_heapPanel_head (df : DataFrame) (s : List (Rat × Rat))
    (r : RenderResult) (h1 : seriesOf df "heap_alloc_mb" = some s)
    (hr : render df = some r) : r.heapPanel.headD [] = s := by
  rw [render, h1] at hr
  rcases h2 : seriesOf df "heap_inuse_mb" with _ | s2 <;>
    rcases h3 : seriesOf df "heap_sys_mb" with _ | s3 <;>
    rcases h4 : seriesOf df "heap_objects" with _ | s4 <;>
    rcases h5 : seriesOf df "goroutines" with _ | s5 <;>
    rcases h6 : seriesOf df "total_alloc_mb" with _ | s6 <;>
    rcases h7 : seriesOf df "num_gc" with _ | s7 <;>
    simp_all
  subst hr
  rfl

/-- C4: on a successful run the output file is named after the input file's
base name with the extension replaced by png, as a bare name written in the
working directory, the printed message contains that output name, and for
input foo.csv the output is foo.png. -/
theorem output_named_after_input (prog p : String) (rest : List String)
    (fs : Fs) (r : RenderResult) (hp : pipeline fs p = some r) :
    pyMain (prog :: p :: rest) fs =
      (Outcome.exit 0,
       [Effect.readCsv p, Effect.writeFile (outName p) r,
        Effect.print (savedMsg (outName p)), Effect.showWindow]) ∧
    outName p = stem p ++ ".png" ∧
    (∃ pre post, savedMsg (outName p) = pre ++ outName p ++ post) ∧
    '/' ∉ (outName p).toList ∧
    outName "foo.csv" = "foo.png" := by
  refine ⟨pyMain_success prog p rest fs r hp, rfl,
    ⟨"Plot saved to: ", "", ?_⟩, outName_no_slash p, by decide⟩
  simp [savedMsg, String.append_empty]

/-- Witness for C4 at the concrete filesystem holding foo.csv. -/
theorem output_named_after_input_witness :
    pyMain ["plot-metrics.py", "foo.csv"] fsEx =
      (Outcome.exit 0,
       [Effect.readCsv "foo.csv", Effect.writeFile (outName "foo.csv") rEx,
        Effect.print (savedMsg (outName "foo.csv")), Effect.showWindow]) :=
  (output_named_after_input "plot-metrics.py" "foo.csv" [] fsEx rEx
    (by decide)).1

/-- C5: in the two-row scenario with timestamps 0 and 120 and heap_alloc_mb
10 and 20, the derived time_minutes column is 0 and 2, and the first series
of the heap-memory panel is exactly the points (0, 10) and (2, 20), in
order. -/
theorem two_row_scenario (df df' : DataFrame)
    (hts : getCol df "timestamp" = some [0, 120])
    (hha : getCol df "heap_alloc_mb" = some [10, 20])
    (hload : load df = some df') :
    getCol df' "time_minutes" = some [0, 2] ∧
    seriesOf df' "heap_alloc_mb" = some [(0, 10), (2, 20)] ∧
    (∀ r, render df' = some r → r.heapPanel.headD [] = [(0, 10), (2, 20)]) := by
  have hmap : ([0, 120] : List Rat).map (fun t => t / 60) = [0, 2] := by
    norm_num
  have hload2 : load df =
      some (setCol df "time_minutes"
        (([0, 120] : List Rat).map (fun t => t / 60))) := by
    simp [load, hts]
  rw [hmap] at hload2
  have hdf' : df' = setCol df "time_minutes" [0, 2] := by
    rw [hload2] at hload
    simpa using hload.symm
  have htm : getCol df' "time_minutes" = some [0, 2] := by
    rw [hdf']
    exact getCol_setCol_self df _ _
  have hha' : getCol df' "heap_alloc_mb" = some [10, 20] := by
    rw [hdf', getCol_setCol_ne df _ _ _ (by decide)]
    exact hha
  have hser : seriesOf df' "heap_alloc_mb" = some [(0, 10), (2, 20)] := by
    rw [seriesOf, htm, hha']
    rfl
  refine ⟨htm, hser, ?_⟩
  intro r hr
  exact render_heapPanel_head df' _ r hser hr

/-- Witness for C5 at the concrete two-row dataframe. -/
theorem two_row_scenario_witness :
    getCol dfLoaded "time_minutes" = some [0, 2] ∧
    seriesOf dfLoaded "heap_alloc_mb" = some [(0, 10), (2, 20)] :=
  ⟨(two_row_scenario dfEx dfLoaded (by decide) (by decide) (by decide)).1,
   (two_row_scenario dfEx dfLoaded (by decide) (by decide) (by decide)).2.1⟩

/-- C9: on a successful run the side effects happen in this order — read
the input, write the rendered grid to the stem-named png, print the
saved-to line, open the viewer window — and the process exits with
code 0. -/
theorem success_effect_order (prog p : String) (rest : List String)
    (fs : Fs) (r : RenderResult) (hp : pipeline fs p = some r) :
    pyMain (prog :: p :: rest) fs =
      (Outcome.exit 0,
       [Effect.readCsv p, Effect.writeFile (outName p) r,
        Effect.print (savedMsg (outName p)), Effect.showWindow]) :=
  pyMain_success prog p rest fs r hp

/-- Witness for C9 at the concrete filesystem holding metrics.csv. -/
theorem success_effect_order_witness :
    pyMain ["plot-metrics.py", "metrics.csv"] fsEx2 =
      (Outcome.exit 0,
       [Effect.readCsv "metrics.csv",
        Effect.writeFile (outName "metrics.csv") rEx,
        Effect.print (savedMsg (outName "metrics.csv")), Effect.showWindow]) :=
  success_effect_order "plot-metrics.py" "metrics.csv" [] fsEx2 rEx (by decide)

/-- C10: an argument naming an existing directory passes the existence
precheck, so the run does not print the not-found diagnostic; instead the
failure surfaces in loading as an uncaught error after only the read
attempt. -/
theorem dir_passes_precheck (prog p : String) (rest : List String) (fs : Fs)
    (h : fs p = some FsEntry.dir) :
    pathExists fs p = true ∧
    pyMain (prog :: p :: rest) fs =
      (Outcome.uncaughtError, [Effect.readCsv p]) ∧
    (pyMain (prog :: p :: rest) fs).2 ≠ [Effect.print (notFoundMsg p)] := by
  have hex : pathExists fs p = true := by simp [pathExists, h]
  have hpipe : pipeline fs p = none := by
    simp [pipeline, readCsvFile, h]
  have heq : pyMain (prog :: p :: rest) fs =
      (Outcome.uncaughtError, [Effect.readCsv p]) := by
    rw [pyMain_cons_cons]
    simp [hex, plotMetrics, hpipe]
  refine ⟨hex, heq, ?_⟩
  rw [heq]
  simp

/-- Witness for C10 at a filesystem holding a directory. -/
theorem dir_passes_precheck_witness :
    pyMain ["plot-metrics.py", "somedir"] fsDir =
      (Outcome.uncaughtError, [Effect.readCsv "somedir"]) :=
  (dir_passes_precheck "plot-metrics.py" "somedir" [] fsDir rfl).2.1

theorem pyMain_write_name (prog p : String) (rest : List String) (fs : Fs)
    (name : String) (r : RenderResult)
    (h : Effect.writeFile name r ∈ (pyMain (prog :: p :: rest) fs).2) :
    name = outName p ∧ pipeline fs p = some r := by
  rw [pyMain_cons_cons] at h
  by_cases hex : pathExists fs p = true
  · rw [if_pos hex] at h
    rw [plotMetrics] at h
    cases hp : pipeline fs p with
    | none => rw [hp] at h; simp at h
    | some r0 =>
        rw [hp] at h
        simp at h
        exact ⟨h.1, by rw [h.2]⟩
  · rw [if_neg hex] at h
    simp at h

/-- C6 (amended): after load the only dataframe modification is the single
time_minutes addition — every other column keeps its loaded values and the
dataset is never written back; every file write of a run goes to the
computed output name only, so the input file is not modified unless the
input path itself equals its stem plus png (an input already named like
foo.png), in which case the rendered image overwrites it. -/
theorem load_frame_condition (prog p : String) (rest : List String)
    (fs : Fs) :
    (∀ df df' c, load df = some df' → c ≠ "time_minutes" →
      getCol df' c = getCol df c) ∧
    (∀ name r, Effect.writeFile name r ∈ (pyMain (prog :: p :: rest) fs).2 →
      name = outName p) ∧
    (outName p ≠ p →
      ∀ r, Effect.writeFile p r ∉ (pyMain (prog :: p :: rest) fs).2) := by
  refine ⟨?_, ?_, ?_⟩
  · intro df df' c hl hc
    cases hts : getCol df "timestamp" with
    | none => rw [load, hts] at hl; simp at hl
    | some ts =>
        have hdf' : df' = setCol df "time_minutes" (ts.map fun t => t / 60) := by
          rw [load, hts] at hl
          simpa using hl.symm
        rw [hdf', getCol_setCol_ne df _ _ _ hc]
  · intro name r h
    exact (pyMain_write_name prog p rest fs name r h).1
  · intro hne r hmem
    exact hne ((pyMain_write_name prog p rest fs p r hmem).1).symm

/-- Witness for C6 at the concrete run on foo.csv. -/
theorem load_frame_condition_witness :
    getCol dfLoaded "timestamp" = getCol dfEx "timestamp" ∧
    Effect.writeFile "foo.csv" rEx ∉
      (pyMain ["plot-metrics.py", "foo.csv"] fsEx).2 :=
  ⟨(load_frame_condition "plot-metrics.py" "foo.csv" [] fsEx).1 dfEx dfLoaded
      "timestamp" (by decide) (by decide),
   (load_frame_condition "plot-metrics.py" "foo.csv" [] fsEx).2.2
      (by decide) rEx⟩

/-- C6 counterexample: with the input file itself named foo.png and holding
valid CSV text, the successful run writes the rendered image over the input
path — the input file is modified. -/
theorem input_file_overwritten :
    Effect.writeFile "foo.png" rEx ∈
      (pyMain ["plot-metrics.py", "foo.png"] fsPng).2 ∧
    fsPng "foo.png" = some (FsEntry.file (FileData.csv dfEx)) ∧
    outName "foo.png" = "foo.png" := by
  decide

/-- C7: once the prechecks pass, a pipeline failure (directory, malformed
CSV, missing column) propagates as an uncaught data-loading error and the
run writes no file at all; a write occurs only when the whole pipeline —
load, transform, and all four panels — succeeds, and then only of the
output PNG. -/
theorem failed_render_writes_nothing (prog p : String) (rest : List String)
    (fs : Fs) (hex : pathExists fs p = true) :
    (pipeline fs p = none →
      pyMain (prog :: p :: rest) fs =
        (Outcome.uncaughtError, [Effect.readCsv p])) ∧
    (∀ name r, Effect.writeFile name r ∈ (pyMain (prog :: p :: rest) fs).2 →
      pipeline fs p = some r ∧ name = outName p) := by
  constructor
  · intro hp
    rw [pyMain_cons_cons]
    simp [hex, plotMetrics, hp]
  · intro name r h
    have hw := pyMain_write_name prog p rest fs name r h
    exact ⟨hw.2, hw.1⟩

/-- Witness for C7: a file whose bytes do not parse as CSV. -/
theorem failed_render_writes_nothing_witness :
    pyMain ["plot-metrics.py", "bad.csv"] fsBad =
      (Outcome.uncaughtError, [Effect.readCsv "bad.csv"]) :=
  (failed_render_writes_nothing "plot-metrics.py" "bad.csv" [] fsBad
    (by decide)).1 (by decide)

/-- C8 (amended): a second run on the same input behaves exactly like the
first — same outcome, same trace, hence same output name and content, the
second write overwriting the first without error — provided the output name
differs from the input path. (When the input is itself named like foo.png
the first run overwrites it, and a second run fails instead.) -/
theorem second_run_identical (prog p : String) (rest : List String)
    (fs : Fs) (hne : outName p ≠ p) :
    pyMain (prog :: p :: rest) (applyRun fs p) =
      pyMain (prog :: p :: rest) fs := by
  have hagree : applyRun fs p p = fs p := by
    rw [applyRun]
    cases hp : pipeline fs p with
    | none => rfl
    | some r =>
        have hpn : ¬ p = outName p := fun h => hne h.symm
        simp [updateFs, hpn]
  exact pyMain_congr prog p rest _ _ hagree

/-- Witness for C8: the second run on foo.csv after the first run's write. -/
theorem second_run_identical_witness :
    pyMain ["plot-metrics.py", "foo.csv"] (applyRun fsEx "foo.csv") =
      pyMain ["plot-metrics.py", "foo.csv"] fsEx :=
  second_run_identical "plot-metrics.py" "foo.csv" [] fsEx (by decide)

/-- C8 counterexample: on an input named foo.png holding valid CSV the first
run succeeds, but its write replaces the input bytes with a PNG, so the
second run ends in an uncaught error instead of succeeding. -/
theorem second_run_fails :
    (pyMain ["plot-metrics.py", "foo.png"] fsPng).1 = Outcome.exit 0 ∧
    (pyMain ["plot-metrics.py", "foo.png"]
      (applyRun fsPng "foo.png")).1 = Outcome.uncaughtError := by
  decide
